import Mathlib

/-!
Shallow embedding of the chromatography plotting repository (src/CM.py).

The repository has one source file with two public functions, `plot` and
`load`, plus four helper functions.  Numbers are modelled as rationals
(the claims are about exact arithmetic formulas such as a factor 1.2 or a
2 percent margin), missing values in the sparse fraction columns are
modelled as `Option`, and Python runtime failures (UnboundLocalError,
NameError) are modelled by an explicit error type.  Printing to standard
output is modelled by returning the list of printed lines next to the
result.
-/

set_option maxRecDepth 8000

namespace CM

/-- Runtime errors of the Python interpreter that the embedded code can
raise: reading a local variable before its assignment, or reading a name
that is defined nowhere. -/
inductive PyError where
  | unboundLocalError (n : String)
  | nameError (n : String)
deriving DecidableEq

/-- Text encodings requested from the csv reader in `load`. -/
inductive Encoding where
  | utf8
  | utf16
deriving DecidableEq

/-- Row of the semantic table that `plot` builds at lines 83 to 91 of
src/CM.py.  Per the data model, Volume_ml, mAU, Volume_grad,
Gradient_percentB and Cond are always present; Fraction_vol and Fraction
are present only on sparse fraction-boundary rows, their missing-value
marker is `none`. -/
structure Row where
  Volume_ml : Rat
  mAU : Rat
  Volume_grad : Rat
  Gradient_percentB : Rat
  Fraction_vol : Option Rat
  Fraction : Option String
  Cond : Rat
deriving DecidableEq

/-- Trace: the ordered table of measurement rows. -/
abbrev Trace := List Row

/-- Maximum of two rationals, written with the core Boolean comparison
so that it evaluates by kernel reduction. -/
def rmax (a b : Rat) : Rat := if a.blt b then b else a

/-- Minimum of two rationals, written with the core Boolean comparison
so that it evaluates by kernel reduction. -/
def rmin (a b : Rat) : Rat := if b.blt a then b else a

/-- Maximum of a column, `none` on the empty column: the model of the
pandas .max() reduction (NaN on an empty column). -/
def listMax? : List Rat → Option Rat
  | [] => none
  | x :: rest => some (rest.foldl rmax x)

/-- Minimum of a column, `none` on the empty column: the model of the
pandas .min() reduction (NaN on an empty column). -/
def listMin? : List Rat → Option Rat
  | [] => none
  | x :: rest => some (rest.foldl rmin x)

/-! ## Loader (src/CM.py lines 270 to 296) -/

/-- Model of pandas.read_csv as called by `load`: read the file named
`filename` decoded with `encoding` from the file system `fs`, drop the
first `skiprows` lines, split every remaining line on the delimiter
`sep`.  The `header` argument is always `none` in the source
(header=None), so the columns of the returned table are positional and
unnamed: the result is a bare list of rows of cells. -/
def read_csv (fs : String → Encoding → List String) (filename sep : String)
    (encoding : Encoding) (skiprows : Nat) (header : Option Nat) :
    List (List String) :=
  ((fs filename encoding).drop skiprows).map (fun line => line.splitOn sep)

/-- Embedding of `load` (src/CM.py lines 270 to 296).  The keyword
argument small_akta_filetype defaults to csv (line 286).  Dispatch (lines
289 to 294): small and csv reads name.csv comma-delimited in UTF-8; small
and asc reads name.asc tab-delimited in UTF-8; large reads name.csv
tab-delimited in UTF-16; each skips the first 3 lines with header=None.
On an unrecognized akta_type or small_akta_filetype the source only
prints a message, so the local variable `data` is never assigned and the
final `return data` (line 296) raises UnboundLocalError.  The first
component of the result is the list of printed lines; quotation marks of
the printed messages are elided. -/
def load (name akta_type : String) (small_akta_filetype : Option String)
    (fs : String → Encoding → List String) :
    List String × Except PyError (List (List String)) :=
  let ft := small_akta_filetype.getD "csv"
  if akta_type == "small" then
    if ft == "csv" then
      ([], .ok (read_csv fs (name ++ ".csv") "," .utf8 3 none))
    else if ft == "asc" then
      ([], .ok (read_csv fs (name ++ ".asc") "\t" .utf8 3 none))
    else
      (["please enter csv or asc for small_akta_filetype"],
       .error (.unboundLocalError "data"))
  else if akta_type == "large" then
    ([], .ok (read_csv fs (name ++ ".csv") "\t" .utf16 3 none))
  else
    (["please enter large or small for akta_type"],
     .error (.unboundLocalError "data"))

/-! ## Renderer prologue (src/CM.py lines 56 to 113)

The `defaults` dictionary (lines 57 to 75) ends with the entry
`x_lim : data["Volume_ml"].max()`.  The local variable `data` is only
assigned later, at line 83, so evaluating the dictionary raises
UnboundLocalError on every call, before the keyword check of lines 76
to 78 can run.  Independently, line 112 reads `ax1.set_xlim(0, x_lim)`
where the bare name `x_lim` is defined neither locally nor at module
level, so even with the defaults repaired the body raises NameError
there.  Both defects are embedded below.  -/

/-- Recognized keyword names checked at line 77 of src/CM.py.  Note that
x_lim is absent from this list although it is a defaults entry. -/
def recognizedKeys : List String :=
  ["title", "fractions", "del_fraction_markings", "uv_color",
   "conductivity_color", "buffer_color", "marker_color", "mark_maxima",
   "maxima_threshold", "maxima_type", "max_width", "salt", "buffer",
   "output_datatype", "figsize", "fraction_text"]

/-- Warning printed at line 78 for a keyword outside `recognizedKeys`. -/
def warnMsg (k : String) : String :=
  "Warning: you might have misspelled the variable: " ++ k ++
    ". Which means the default parameter was used"

/-- Warnings the loop of lines 76 to 78 would print for the given
keyword names: one message per key outside the recognized list. -/
def warningsFor (kwargKeys : List String) : List String :=
  (kwargKeys.filter (fun k => !(recognizedKeys.contains k))).map warnMsg

/-- Evaluation of the x_lim entry of the defaults dictionary (line 74):
it reads `data["Volume_ml"].max()` from the given local environment.
When the local `data` is unassigned this raises UnboundLocalError; when
it is assigned the value is the maximum of the Volume_ml column (`none`
models the NaN obtained from an empty column). -/
def defaultXlim (dataLocal : Option Trace) : Except PyError (Option Rat) :=
  match dataLocal with
  | none => .error (.unboundLocalError "data")
  | some d => .ok (listMax? (d.map (·.Volume_ml)))

/-- Body of `plot` after the defaults dictionary: when the dictionary
evaluation failed the error propagates; otherwise the keyword warnings
of lines 76 to 78 are printed and execution proceeds to line 112, where
the undefined bare name x_lim raises NameError before any axis limit,
marker, legend or output file is produced. -/
def plotBody (defaultsXlim : Except PyError (Option Rat))
    (kwargKeys : List String) : List String × Except PyError String :=
  match defaultsXlim with
  | .error e => ([], .error e)
  | .ok _ => (warningsFor kwargKeys, .error (.nameError "x_lim"))

/-- Embedding of `plot` (src/CM.py lines 5 to 139).  The positional
arguments and the keyword names are those of the source; a successful
run would return the name of the written file, but the defaults
dictionary at line 74 reads the local `data` before its assignment at
line 83, so every call raises UnboundLocalError with nothing printed. -/
def plot (name : String) (input_data : Trace) (akta_type : String)
    (kwargKeys : List String) : List String × Except PyError String :=
  plotBody (defaultXlim none) kwargKeys

/-! ## Axis limit formulas (src/CM.py lines 108 to 113) -/

/-- mAU column of the semantic table. -/
def mAUs (t : Trace) : List Rat := t.map (·.mAU)

/-- Upper y limit, line 109: `data["mAU"].max() + data["mAU"].max() * 0.2`.
The result is `none` when the column is empty (NaN in the source). -/
def y_lim? (t : Trace) : Option Rat :=
  (listMax? (mAUs t)).map (fun m => m + m * 0.2)

/-- Lower y limit, lines 110 and 111: the minimum of the mAU column
after skipping the first 100 rows, minus `y_lim * 0.02`. -/
def y_limmin? (t : Trace) : Option Rat :=
  (listMin? ((mAUs t).drop 100)).bind (fun m0 =>
    (y_lim? t).map (fun u => m0 - u * 0.02))

/-! ## Secondary axes and legend (src/CM.py lines 128 to 135, 211 to 268) -/

/-- Secondary y axis created by `_add_secondary_axes`, together with the
single line it plots: legend label of the line, its x and y data, its
color, whether its line style is dashed, the axis y range (the upper end
is `none` when the source would compute NaN from an empty column), and
the outward offset of the axis spine when one is set. -/
structure SecAxis where
  label : String
  xdata : List Rat
  ydata : List Rat
  color : String
  dashed : Bool
  ylim_lo : Rat
  ylim_hi : Option Rat
  outwardOffset : Option Rat
deriving DecidableEq

/-- Configuration slice consumed by `_add_secondary_axes`: the buffer and
salt switches and the two line colors. -/
structure SecCfg where
  buffer : Bool
  salt : Bool
  buffer_color : String
  conductivity_color : String
deriving DecidableEq

/-- Embedding of `_add_secondary_axes` (src/CM.py lines 211 to 268).
Buffer only: one axis plotting Gradient_percentB against Volume_grad,
dashed, range 0 to 105.  Salt only: one axis plotting Cond against
Volume_ml, range 0 to max(Cond) plus max(Cond) times 0.2.  Both: the
buffer axis followed by the conductivity axis, the latter with its right
spine offset outward by 60.  Neither: no axis.  The returned list is the
`additional_lines` list of the source in order. -/
def addSecondaryAxes (t : Trace) (cfg : SecCfg) : List SecAxis :=
  if cfg.buffer && !cfg.salt then
    [⟨"Buffer B (%)", t.map (·.Volume_grad), t.map (·.Gradient_percentB),
      cfg.buffer_color, true, 0, some 105, none⟩]
  else if cfg.salt && !cfg.buffer then
    [⟨"Conductivity (mS/cm)", t.map (·.Volume_ml), t.map (·.Cond),
      cfg.conductivity_color, false, 0,
      (listMax? (t.map (·.Cond))).map (fun m => m + m * 0.2), none⟩]
  else if cfg.buffer && cfg.salt then
    [⟨"Buffer B (%)", t.map (·.Volume_grad), t.map (·.Gradient_percentB),
      cfg.buffer_color, true, 0, some 105, none⟩,
     ⟨"Conductivity (mS/cm)", t.map (·.Volume_ml), t.map (·.Cond),
      cfg.conductivity_color, false, 0,
      (listMax? (t.map (·.Cond))).map (fun m => m + m * 0.2), some 60⟩]
  else []

/-- Legend labels built at lines 129 to 133 of src/CM.py: the UV line is
always first, followed by the labels of the lines returned by
`_add_secondary_axes`, in order. -/
def legendLabels (t : Trace) (cfg : SecCfg) : List String :=
  "UV Absorption (mAU)" :: (addSecondaryAxes t cfg).map (·.label)

/-! ## Fraction band highlighting (src/CM.py lines 172 to 190) -/

/-- Shaded fraction band drawn by axvspan at lines 187 to 190: left and
right edge volumes (each may be the missing-value marker when the
matching row has no Fraction_vol) and the text label placed on it. -/
structure Band where
  lo : Option Rat
  hi : Option Rat
  label : String
deriving DecidableEq

/-- Fraction label format per instrument variant: the small variant
prefixes the number with T, the large variant uses the bare number
(src/CM.py lines 178 to 183). -/
def fracLabel (akta_type : String) (n : Int) : String :=
  if akta_type == "small" then "T" ++ toString n else toString n

/-- Fraction_vol entries of the rows whose Fraction column equals the
given label, in row order: the filtered column
`data[data[Fraction] == lbl][Fraction_vol]` of the source. -/
def fractionVolsFor (t : Trace) (lbl : String) : List (Option Rat) :=
  (t.filter (fun r => r.Fraction == some lbl)).map (·.Fraction_vol)

/-- Band construction for one requested fraction (lines 179 to 190): when
both filtered columns are nonempty the band runs from the first entry of
the lower column to the first entry of the higher column and is labelled
F followed by the fraction number; otherwise no band is drawn. -/
def mkBand (t : Trace) (lbl1 lbl2 : String) (f : Int) : Option Band :=
  match fractionVolsFor t lbl1, fractionVolsFor t lbl2 with
  | lo :: _, hi :: _ => some ⟨lo, hi, "F" ++ toString f⟩
  | _, _ => none

/-- One iteration of the loop of `_add_fraction_highlighting`: the small
variant looks up labels T followed by the numbers f and f plus 1, the
large variant the bare numbers.  For any other akta_type neither branch
assigns the local vol_lower, so line 185 raises UnboundLocalError. -/
def bandFor (t : Trace) (akta_type : String) (f : Int) :
    Except PyError (Option Band) :=
  if akta_type == "small" then
    .ok (mkBand t ("T" ++ toString f) ("T" ++ toString (f + 1)) f)
  else if akta_type == "large" then
    .ok (mkBand t (toString f) (toString (f + 1)) f)
  else .error (.unboundLocalError "vol_lower")

/-- Embedding of `_add_fraction_highlighting` (src/CM.py lines 172 to
190): iterate over the requested fraction numbers, collecting the bands
that are drawn; a fraction whose boundary rows are absent contributes no
band and no error. -/
def addFractionHighlighting (t : Trace) (fractions : List Int)
    (akta_type : String) : Except PyError (List Band) :=
  fractions.foldl
    (fun acc f => acc.bind (fun bs =>
      (bandFor t akta_type f).map (fun ob => bs ++ ob.toList)))
    (.ok [])

/-! ## Peak maxima markers (src/CM.py lines 144 to 169)

Peak detection is delegated to the external library call
scipy.signal.find_peaks(series, prominence=threshold,
plateau_size=[0, 10], width=[0, max_width]).  The library is not part of
this repository; following the contract stated in the specification it
is modelled here as local plateau maxima of the raw series, filtered by
a plateau size of at most 10 samples, a minimum prominence, and a cap on
a discrete width measured in samples at half prominence. -/

/-- Length of the longest prefix of the list whose entries equal `v`. -/
def runLen : List Rat → Rat → Nat
  | [], _ => 0
  | x :: rest, v => if x == v then runLen rest v + 1 else 0

/-- Minimum of the entries strictly left of position `j`, walking left
and stopping before the first entry higher than `h` (or at the start),
accumulated into `acc`. -/
def scanLeftMin (xs : List Rat) (h : Rat) : Nat → Rat → Rat
  | 0, acc => acc
  | j + 1, acc =>
    if h.blt (xs.getD j 0) then acc
    else scanLeftMin xs h j (rmin acc (xs.getD j 0))

/-- Minimum of the entries of the list, walking right and stopping
before the first entry higher than `h`, accumulated into `acc`. -/
def scanRightMin (h : Rat) : List Rat → Rat → Rat
  | [], acc => acc
  | v :: rest, acc => if h.blt v then acc else scanRightMin h rest (rmin acc v)

/-- Prominence of the plateau maximum with edges `l` and `r`: its height
minus the higher of the two base levels found by walking out to the
nearest higher point or signal end on each side. -/
def prominence (xs : List Rat) (l r : Nat) : Rat :=
  let h := xs.getD l 0
  h - rmax (scanLeftMin xs h l h) (scanRightMin h (xs.drop (r + 1)) h)

/-- Number of contiguous entries above level `w` strictly left of
position `j`, walking left. -/
def countLeftAbove (xs : List Rat) (w : Rat) : Nat → Nat
  | 0 => 0
  | j + 1 => if w.blt (xs.getD j 0) then countLeftAbove xs w j + 1 else 0

/-- Number of contiguous entries of the list above level `w`, walking
right from its start. -/
def countRightAbove (w : Rat) : List Rat → Nat
  | [] => 0
  | v :: rest => if w.blt v then countRightAbove w rest + 1 else 0

/-- Discrete width of the plateau maximum with edges `l` and `r`: the
number of contiguous samples around it that lie above its height minus
half its prominence. -/
def peakWidth (xs : List Rat) (l r : Nat) : Rat :=
  let w := xs.getD l 0 - prominence xs l r / 2
  mkRat (countLeftAbove xs w l + (r - l + 1) + countRightAbove w (xs.drop (r + 1))) 1

/-- Model of the external peak detector as called at lines 146 to 149 of
src/CM.py: interior plateau maxima of `xs` (plateau edges `l` to `r`
with a lower neighbour on each side), kept when the plateau size is at
most 10, the prominence reaches `promThresh` and the width is at most
`maxWidth`; each kept plateau is reported by its middle index. -/
def findPeaks (xs : List Rat) (promThresh maxWidth : Rat) : List Nat :=
  (((List.range xs.length).filterMap (fun l =>
      let h := xs.getD l 0
      let r := l + runLen (xs.drop l) h - 1
      if 1 ≤ l && decide (r + 1 < xs.length) && (xs.getD (l - 1) 0).blt h &&
          (xs.getD (r + 1) 0).blt h then
        some (l, r)
      else none)).filter
    (fun p => decide (p.2 - p.1 + 1 ≤ 10) &&
       !((prominence xs p.1 p.2).blt promThresh) &&
       !(maxWidth.blt (peakWidth xs p.1 p.2)))).map
    (fun p => (p.1 + p.2) / 2)

/-- Floor of a rational, written with the core Euclidean division so
that it evaluates by kernel reduction. -/
def ratFloor (q : Rat) : Int := q.num.ediv q.den

/-- Number formatting used by the annotations at lines 157 to 161, the
Python format specifier .1f: the value rounded to one decimal digit.
Only nonnegative values occur in the measurements this is applied to. -/
def fmt1 (q : Rat) : String :=
  let n : Int := ratFloor (q * 10 + mkRat 1 2)
  toString (n.ediv 10) ++ "." ++ toString (n.emod 10)

/-- Annotation text chosen at lines 156 to 161: the volume with suffix
mL when maxima_type is mL, the amplitude with suffix mAU when it is mAU,
and the mL format as the fallback for any other string. -/
def maximaAnnot (maxima_type : String) (x y : Rat) : String :=
  if maxima_type == "mL" then fmt1 x ++ " mL"
  else if maxima_type == "mAU" then fmt1 y ++ " mAU"
  else fmt1 x ++ " mL"

/-- Configuration slice consumed by `_add_maxima_markers`. -/
structure MaximaCfg where
  maxima_type : String
  maxima_threshold : Rat
  max_width : Rat
  marker_color : String
deriving DecidableEq

/-- Marker drawn for one detected peak: its position, its annotation
text and its color. -/
structure Marker where
  x : Rat
  y : Rat
  text : String
  color : String
deriving DecidableEq

/-- Marker produced for peak index `i` at lines 151 to 169: position
(Volume_ml at i, mAU at i), annotation per `maximaAnnot`, the configured
marker color. -/
def mkMaxMarker (t : Trace) (cfg : MaximaCfg) (i : Nat) : Marker :=
  ⟨(t.map (·.Volume_ml)).getD i 0, (t.map (·.mAU)).getD i 0,
   maximaAnnot cfg.maxima_type ((t.map (·.Volume_ml)).getD i 0)
     ((t.map (·.mAU)).getD i 0),
   cfg.marker_color⟩

/-- Embedding of `_add_maxima_markers` (src/CM.py lines 144 to 169): run
the peak detector on the mAU series (column 1 of the semantic table)
with the configured prominence threshold and width cap, then loop over
the detected indices appending one marker each. -/
def addMaximaMarkers (t : Trace) (cfg : MaximaCfg) : List Marker :=
  (findPeaks (t.map (·.mAU)) cfg.maxima_threshold cfg.max_width).foldl
    (fun acc i => acc ++ [mkMaxMarker t cfg i]) []

/-! ## Concrete fixtures used by witnesses and counterexamples -/

/-- Flat trace row with mAU value 5, used to build a trace long enough
for the 100-row skip of the lower y limit. -/
def row5 : Row := ⟨0, 5, 0, 0, none, none, 0⟩

/-- Trace of 101 identical rows, long enough that its mAU column still
has entries after the first 100 rows are skipped. -/
def T3 : Trace := List.replicate 101 row5

/-- Trace with two fraction-boundary rows labelled T1 and T2 in the
small-variant format, at volumes 10 and 20. -/
def T5 : Trace :=
  [⟨0, 0, 0, 0, some 10, some "T1", 0⟩,
   ⟨0, 0, 0, 0, some 20, some "T2", 0⟩]

/-- Synthetic five-row trace whose mAU series 0, 10, 100, 10, 0 has
exactly one point above the default prominence threshold 50, at volume
2. -/
def T6 : Trace :=
  [⟨0, 0, 0, 0, none, none, 0⟩,
   ⟨1, 10, 0, 0, none, none, 0⟩,
   ⟨2, 100, 0, 0, none, none, 0⟩,
   ⟨3, 10, 0, 0, none, none, 0⟩,
   ⟨4, 0, 0, 0, none, none, 0⟩]

/-! ## Helper lemmas -/

/-- Folding an append of singletons over a list builds the map of the
list onto the accumulator. -/
theorem foldl_append_singleton_eq_map {α β : Type} (f : α → β) :
    ∀ (l : List α) (acc : List β),
      l.foldl (fun a i => a ++ [f i]) acc = acc ++ l.map f := by
  intro l
  induction l with
  | nil => intro acc; simp
  | cons x xs ih => intro acc; simp [List.foldl, ih]

/-- Scaling expressed as in the source, a value plus a fifth of itself,
equals multiplication by 1.2, lifted over the optional column maximum. -/
theorem option_scale_eq (o : Option Rat) :
    o.map (fun m => m + m * 0.2) = o.map (fun m => m * 1.2) := by
  cases o with
  | none => rfl
  | some a =>
    have h : a + a * 0.2 = a * 1.2 := by norm_num; ring
    simp [h]

/-- Filtered fraction volume column is nonempty exactly when some row
carries the requested label. -/
theorem fractionVolsFor_ne_nil_iff (t : Trace) (lbl : String) :
    fractionVolsFor t lbl ≠ [] ↔ ∃ r ∈ t, r.Fraction = some lbl := by
  unfold fractionVolsFor
  rw [ne_eq, List.map_eq_nil_iff, List.filter_eq_nil_iff]
  push_neg
  simp

/-- Band construction succeeds exactly when both filtered columns are
nonempty. -/
theorem mkBand_toList_ne_nil_iff (t : Trace) (lbl1 lbl2 : String) (f : Int) :
    (mkBand t lbl1 lbl2 f).toList ≠ [] ↔
      (fractionVolsFor t lbl1 ≠ [] ∧ fractionVolsFor t lbl2 ≠ []) := by
  unfold mkBand
  rcases h1 : fractionVolsFor t lbl1 with _ | ⟨a, l1⟩ <;>
    rcases h2 : fractionVolsFor t lbl2 with _ | ⟨b, l2⟩ <;> simp

/-! ## Claims -/

/-- C1: the claim states that load followed by plot with only the
required arguments and minimal configuration completes without raising
and writes an image file.  In fact every call to plot raises
UnboundLocalError while evaluating the defaults dictionary, whose x_lim
entry reads the local variable data before its assignment, so no output
file is ever written; this theorem evaluates the embedded plot on
arbitrary input. -/
theorem C1_plot_always_raises :
    ∀ (name : String) (input_data : Trace) (akta_type : String)
      (kwargKeys : List String),
      plot name input_data akta_type kwargKeys =
        ([], .error (.unboundLocalError "data")) :=
  fun _ _ _ _ => rfl

/-- C2: load with akta_type small and filetype csv (also by default)
reads name.csv comma-delimited in UTF-8, with small and asc it reads
name.asc tab-delimited in UTF-8, with large it reads name.csv
tab-delimited in UTF-16; in every case the first 3 lines are skipped,
there is no header row, and the parsed rows are returned as a positional
table of split lines. -/
theorem C2_load_dispatch :
    ∀ (name : String) (fs : String → Encoding → List String),
      load name "small" none fs =
        ([], .ok (((fs (name ++ ".csv") .utf8).drop 3).map
          (fun line => line.splitOn ","))) ∧
      load name "small" (some "csv") fs =
        ([], .ok (((fs (name ++ ".csv") .utf8).drop 3).map
          (fun line => line.splitOn ","))) ∧
      load name "small" (some "asc") fs =
        ([], .ok (((fs (name ++ ".asc") .utf8).drop 3).map
          (fun line => line.splitOn "\t"))) ∧
      load name "large" none fs =
        ([], .ok (((fs (name ++ ".csv") .utf16).drop 3).map
          (fun line => line.splitOn "\t"))) :=
  fun _ _ => ⟨rfl, rfl, rfl, rfl⟩

/-- C3: the upper y limit formula of the code is max(mAU) times 1.2 and
the lower one is the minimum of mAU after skipping the first 100 rows
minus 2 percent of the upper limit, as the claim states; but the x axis
is never set: the call raises UnboundLocalError in the defaults
dictionary, and even past that point line 112 references the undefined
bare name x_lim instead of the configured limit, raising NameError. -/
theorem C3_axis_limits_and_xlim_bug :
    (∀ (t : Trace) (m1 m0 : Rat),
       listMax? (mAUs t) = some m1 →
       listMin? ((mAUs t).drop 100) = some m0 →
       y_lim? t = some (m1 * 1.2) ∧
       y_limmin? t = some (m0 - m1 * 1.2 * 0.02)) ∧
    (∀ (kwargKeys : List String) (xl : Option Rat),
       plotBody (.ok xl) kwargKeys =
         (warningsFor kwargKeys, .error (.nameError "x_lim"))) ∧
    (∀ (name : String) (t : Trace) (akta_type : String) (kw : List String),
       plot name t akta_type kw = ([], .error (.unboundLocalError "data"))) := by
  refine ⟨?_, fun _ _ => rfl, fun _ _ _ _ => rfl⟩
  intro t m1 m0 h1 h2
  have hu : y_lim? t = some (m1 + m1 * 0.2) := by
    unfold y_lim?
    rw [h1]
    rfl
  have hs : m1 + m1 * 0.2 = m1 * 1.2 := by norm_num; ring
  constructor
  · rw [hu, hs]
  · unfold y_limmin?
    rw [h2, hu]
    show some (m0 - (m1 + m1 * 0.2) * 0.02) = some (m0 - m1 * 1.2 * 0.02)
    rw [hs]

/-- C3 witness: a 101-row flat trace with mAU value 5 satisfies both
column hypotheses and gets upper limit 6 and lower limit 4.88. -/
theorem C3_axis_limits_witness :
    (listMax? (mAUs T3) = some 5 ∧ listMin? ((mAUs T3).drop 100) = some 5) ∧
    (y_lim? T3 = some (5 * 1.2) ∧
     y_limmin? T3 = some (5 - 5 * 1.2 * 0.02)) :=
  ⟨⟨by decide, by decide⟩,
   C3_axis_limits_and_xlim_bug.1 T3 5 5 (by decide) (by decide)⟩

/-- C4 counterexample: with both overlays enabled the legend reads UV,
buffer, conductivity, not the order UV, conductivity, buffer stated by
the claim. -/
theorem C4_legend_order_counterexample :
    legendLabels [] ⟨true, true, "#2ca02c", "#d68924"⟩ =
      ["UV Absorption (mAU)", "Buffer B (%)", "Conductivity (mS/cm)"] ∧
    legendLabels [] ⟨true, true, "#2ca02c", "#d68924"⟩ ≠
      ["UV Absorption (mAU)", "Conductivity (mS/cm)", "Buffer B (%)"] := by
  refine ⟨rfl, ?_⟩
  decide

/-- C4 amended: in every configuration the legend lists exactly the
lines actually drawn, the UV line always first, the buffer line when the
buffer overlay is enabled, then the conductivity line when the salt
overlay is enabled; so with both enabled the fixed order is UV, buffer,
conductivity. -/
theorem C4_legend_exact_lines :
    ∀ (t : Trace) (b s : Bool) (bc cc : String),
      legendLabels t ⟨b, s, bc, cc⟩ =
        "UV Absorption (mAU)" ::
          ((if b then ["Buffer B (%)"] else []) ++
           (if s then ["Conductivity (mS/cm)"] else [])) := by
  intro t b s bc cc
  cases b <;> cases s <;> rfl

/-- C5: for akta_type small or large and fractions containing a single
number f, the fraction highlighting returns without exception, and a
band is drawn exactly when the trace has a row labelled with f and a row
labelled with f plus 1, each formatted per variant. -/
theorem C5_fraction_band_iff (t : Trace) (f : Int) (akta_type : String)
    (h : akta_type = "small" ∨ akta_type = "large") :
    ∃ bs : List Band, addFractionHighlighting t [f] akta_type = .ok bs ∧
      (bs ≠ [] ↔
        ((∃ r ∈ t, r.Fraction = some (fracLabel akta_type f)) ∧
         (∃ r ∈ t, r.Fraction = some (fracLabel akta_type (f + 1))))) := by
  rcases h with h | h <;> subst h
  · refine ⟨(mkBand t ("T" ++ toString f) ("T" ++ toString (f + 1)) f).toList,
      rfl, ?_⟩
    rw [mkBand_toList_ne_nil_iff, fractionVolsFor_ne_nil_iff,
      fractionVolsFor_ne_nil_iff]
    rfl
  · refine ⟨(mkBand t (toString f) (toString (f + 1)) f).toList, rfl, ?_⟩
    rw [mkBand_toList_ne_nil_iff, fractionVolsFor_ne_nil_iff,
      fractionVolsFor_ne_nil_iff]
    rfl

/-- C5 witness: on a small-variant trace holding boundary rows T1 and
T2, highlighting fraction 1 succeeds and the band condition holds. -/
theorem C5_fraction_band_iff_witness :
    ("small" = "small" ∨ "small" = "large") ∧
    (∃ bs : List Band, addFractionHighlighting T5 [1] "small" = .ok bs ∧
      (bs ≠ [] ↔
        ((∃ r ∈ T5, r.Fraction = some (fracLabel "small" 1)) ∧
         (∃ r ∈ T5, r.Fraction = some (fracLabel "small" (1 + 1)))))) :=
  ⟨Or.inl rfl, C5_fraction_band_iff T5 1 "small" (Or.inl rfl)⟩

unseal Rat.mul Rat.add Rat.sub Rat.inv Rat.ofScientific in
/-- C6: the maxima markers are the image of the peak indices found on
the mAU series with the configured prominence threshold and width cap,
each marker placed at (Volume_ml, mAU) of its index and annotated per
maxima_type; on the synthetic series 0, 10, 100, 10, 0 with threshold 50
exactly one peak is detected and exactly one marker produced, annotated
2.0 mL in mL mode and 100.0 mAU in mAU mode. -/
theorem C6_maxima_markers :
    (∀ (t : Trace) (cfg : MaximaCfg),
       addMaximaMarkers t cfg =
         (findPeaks (t.map (·.mAU)) cfg.maxima_threshold cfg.max_width).map
           (mkMaxMarker t cfg)) ∧
    findPeaks [0, 10, 100, 10, 0] 50 10000 = [2] ∧
    addMaximaMarkers T6 ⟨"mL", 50, 10000, "#dc143c"⟩ =
      [⟨2, 100, "2.0 mL", "#dc143c"⟩] ∧
    addMaximaMarkers T6 ⟨"mAU", 50, 10000, "#dc143c"⟩ =
      [⟨2, 100, "100.0 mAU", "#dc143c"⟩] := by
  refine ⟨?_, by decide, by decide, by decide⟩
  intro t cfg
  unfold addMaximaMarkers
  rw [foldl_append_singleton_eq_map, List.nil_append]

/-- C7: buffer only creates one secondary axis plotting
Gradient_percentB against Volume_grad with fixed range 0 to 105; salt
only creates one axis plotting Cond against Volume_ml with range 0 to
max(Cond) times 1.2; both create the buffer axis and then the
conductivity axis with the same per-axis ranges, the conductivity axis
offset outward by 60; neither creates no axis. -/
theorem C7_secondary_axes :
    ∀ (t : Trace) (bc cc : String),
      addSecondaryAxes t ⟨true, false, bc, cc⟩ =
        [⟨"Buffer B (%)", t.map (·.Volume_grad), t.map (·.Gradient_percentB),
          bc, true, 0, some 105, none⟩] ∧
      addSecondaryAxes t ⟨false, true, bc, cc⟩ =
        [⟨"Conductivity (mS/cm)", t.map (·.Volume_ml), t.map (·.Cond),
          cc, false, 0,
          (listMax? (t.map (·.Cond))).map (fun m => m * 1.2), none⟩] ∧
      addSecondaryAxes t ⟨true, true, bc, cc⟩ =
        [⟨"Buffer B (%)", t.map (·.Volume_grad), t.map (·.Gradient_percentB),
          bc, true, 0, some 105, none⟩,
         ⟨"Conductivity (mS/cm)", t.map (·.Volume_ml), t.map (·.Cond),
          cc, false, 0,
          (listMax? (t.map (·.Cond))).map (fun m => m * 1.2), some 60⟩] ∧
      addSecondaryAxes t ⟨false, false, bc, cc⟩ = [] := by
  intro t bc cc
  refine ⟨rfl, ?_, ?_, rfl⟩ <;>
    simp only [addSecondaryAxes, option_scale_eq] <;> rfl

/-- C8: the claim states that an unrecognized configuration key produces
a non-fatal warning and the call continues with defaults.  The key check
of lines 76 to 78 would indeed warn exactly on unrecognized keys, but it
is never reached: the call raises UnboundLocalError in the defaults
dictionary first, so no warning is printed and nothing continues. -/
theorem C8_unrecognized_key_crash_before_warning :
    warningsFor ["typokey"] = [warnMsg "typokey"] ∧
    warningsFor ["title"] = [] ∧
    (∀ (t : Trace),
       plot "out" t "small" ["typokey"] =
         ([], .error (.unboundLocalError "data"))) :=
  ⟨rfl, rfl, fun _ => rfl⟩

/-- C9 counterexample: load with an unrecognized akta_type prints the
warning but then does not return any result: the final return statement
reads the never-assigned local data and raises. -/
theorem C9_load_returns_counterexample :
    (load "x" "bogus" none (fun _ _ => [])).1 =
      ["please enter large or small for akta_type"] ∧
    ¬ ∃ rows, (load "x" "bogus" none (fun _ _ => [])).2 = .ok rows := by
  refine ⟨rfl, ?_⟩
  rintro ⟨rows, h⟩
  have he : (load "x" "bogus" none (fun _ _ => [])).2 =
      .error (.unboundLocalError "data") := rfl
  rw [he] at h
  exact Except.noConfusion h

/-- C9 amended: load with an unrecognized akta_type, or with small and
an unrecognized small_akta_filetype, warns to output and then raises
UnboundLocalError returning the never-assigned data, rather than failing
with a configuration error. -/
theorem C9_load_misconfig_raises :
    load "x" "bogus" none (fun _ _ => []) =
      (["please enter large or small for akta_type"],
       .error (.unboundLocalError "data")) ∧
    load "x" "small" (some "xml") (fun _ _ => []) =
      (["please enter csv or asc for small_akta_filetype"],
       .error (.unboundLocalError "data")) :=
  ⟨rfl, rfl⟩

/-- C10: with maxima_type any string other than mL and mAU, every
detected peak is annotated through the fallback branch, which formats
the volume exactly like the mL branch, so the produced markers equal
those of the same configuration with maxima_type mL. -/
theorem C10_maxima_type_fallback (t : Trace) (cfg : MaximaCfg)
    (h1 : cfg.maxima_type ≠ "mL") (h2 : cfg.maxima_type ≠ "mAU") :
    addMaximaMarkers t cfg =
      addMaximaMarkers t { cfg with maxima_type := "mL" } := by
  have ha : ∀ x y, maximaAnnot cfg.maxima_type x y = maximaAnnot "mL" x y := by
    intro x y
    simp [maximaAnnot, h1, h2]
  simp [addMaximaMarkers, mkMaxMarker, ha]

/-- C10 witness: on the synthetic trace, the unrecognized maxima_type
xyz yields the same markers as mL. -/
theorem C10_maxima_type_fallback_witness :
    (("xyz" : String) ≠ "mL" ∧ ("xyz" : String) ≠ "mAU") ∧
    addMaximaMarkers T6 ⟨"xyz", 50, 10000, "#dc143c"⟩ =
      addMaximaMarkers T6
        { (⟨"xyz", 50, 10000, "#dc143c"⟩ : MaximaCfg) with
          maxima_type := "mL" } :=
  ⟨⟨by decide, by decide⟩,
   C10_maxima_type_fallback T6 ⟨"xyz", 50, 10000, "#dc143c"⟩
     (by decide) (by decide)⟩

end CM
